import Mathlib

/-!
Shallow embedding of the free-space-optical (FSO) link simulation exercised by
`src/fso/examples/fso-example.cc`.  The example program is the only source file
present in the repository; the FSO module classes it instantiates
(`FsoChannel`, `FsoDownLinkPhy`, the three propagation-loss models, the error
model and the delay model) are modelled from the specification, as indicated in
the doc comment of each such definition.
-/

open MeasureTheory ProbabilityTheory Real
open scoped NNReal

/-- Three-dimensional position vector (ns-3 `Vector`, used by
`ConstantPositionMobilityModel` in the example). -/
structure Vec3 where
  x : ℝ
  y : ℝ
  z : ℝ

/-- Euclidean distance between two positions (ns-3 `CalculateDistance`). -/
noncomputable def distance (a b : Vec3) : ℝ :=
  Real.sqrt ((b.x - a.x) ^ 2 + (b.y - a.y) ^ 2 + (b.z - a.z) ^ 2)

/-- Transmitting laser antenna (`LaserAntennaModel`), configured in the example
via `SetBeamwidth` (a diameter, meters), `SetPhaseFrontRadius` (meters),
`SetOrientation`, `SetTxPower` (Watts) and `SetGain` (dB). -/
structure LaserAntennaModel where
  beamwidth : ℝ
  phaseFrontRadius : ℝ
  orientation : ℝ
  txPower : ℝ
  gain : ℝ

/-- Receiving optical antenna (`OpticalRxAntennaModel`), configured in the
example via `SetApertureDiameter` (meters), `SetRxGain` (dB), `SetOrientation`. -/
structure OpticalRxAntennaModel where
  apertureDiameter : ℝ
  rxGain : ℝ
  orientation : ℝ

/-- Signal parameters threaded through the loss pipeline (`FsoSignalParameters`).
The fields assigned by the example program are `wavelength`, `frequency`,
`symbolPeriod`, `power`, `txPhy` (modelled as a numeric PHY identity),
`txAntenna`, `txBeamwidth` and `txPhaseFrontRadius`.  Modelled from the spec:
the auxiliary fields `scintillationIndex` and `meanIrradiance` are written by
the scintillation-index and mean-irradiance loss models (spec §4.2) and read by
the error model (spec §4.4); they start at their zero defaults. -/
structure FsoSignalParameters where
  wavelength : ℝ
  frequency : ℝ
  symbolPeriod : ℝ
  power : ℝ
  txPhy : ℕ
  txAntenna : LaserAntennaModel
  txBeamwidth : ℝ
  txPhaseFrontRadius : ℝ
  scintillationIndex : ℝ := 0
  meanIrradiance : ℝ := 0

/-- Conversion of a dB figure to a linear power ratio. -/
noncomputable def dbToLinear (g : ℝ) : ℝ := (10 : ℝ) ^ (g / 10)

/-- Modelled from the spec: the interface of `FsoPropagationLossModel`
(source file absent from the repository).  Each loss model maps the signal
parameters together with the transmitter and receiver positions to updated
signal parameters (spec §4.2). -/
def FsoPropagationLossModel : Type :=
  FsoSignalParameters → Vec3 → Vec3 → FsoSignalParameters

/-- Free-space path loss in dB: `20·log10(4π·d/λ)` (spec §4.2). -/
noncomputable def freeSpaceLossDb (d wavelength : ℝ) : ℝ :=
  20 * Real.logb 10 (4 * π * d / wavelength)

/-- Linear power factor corresponding to `freeSpaceLossDb` dB of power loss. -/
noncomputable def freeSpaceLossFactor (d wavelength : ℝ) : ℝ :=
  (10 : ℝ) ^ (-(freeSpaceLossDb d wavelength) / 10)

/-- Modelled from the spec: `FsoFreeSpaceLossModel` (source file absent from
the repository).  Computes the free-space path loss in dB from the Euclidean
distance and the wavelength, converts it to a linear power ratio and
multiplies it into the `power` field (spec §4.2). -/
noncomputable def FsoFreeSpaceLossModel : FsoPropagationLossModel :=
  fun p txPos rxPos =>
    { p with power := p.power * freeSpaceLossFactor (distance txPos rxPos) p.wavelength }

/-- Modelled from the spec: Hufnagel-Valley-style altitude profile of the
refractive-index structure constant, parameterized by the rms wind speed `w`
and the ground refractive-index structure constant `A` (spec §4.2, glossary). -/
noncomputable def hufnagelValleyCn2 (w A h : ℝ) : ℝ :=
  0.00594 * (w / 27) ^ 2 * ((1e-5) * h) ^ (10 : ℕ) * Real.exp (-(h / 1000))
    + 2.7e-16 * Real.exp (-(h / 1500)) + A * Real.exp (-(h / 100))

/-- Modelled from the spec: Rytov variance via an altitude-integrated
refractive-index structure profile, as a function of the optical wavenumber,
the link altitude `bigH` and the secant of the zenith angle (spec §4.2). -/
noncomputable def rytovVariance (w A wavelength bigH secZenith : ℝ) : ℝ :=
  2.25 * (2 * π / wavelength) ^ ((7 : ℝ) / 6) * secZenith ^ ((11 : ℝ) / 6) *
    ∫ h in Set.Ioc (0 : ℝ) bigH, hufnagelValleyCn2 w A h * h ^ ((5 : ℝ) / 6)

/-- Modelled from the spec: `FsoDownLinkScintillationIndexModel` (source file
absent from the repository), parameterized by the rms wind speed and the
ground refractive-index structure constant fixed at setup.  It stores the
turbulence-derived scintillation index in the auxiliary field of the signal
parameters and does not touch `power` (spec §4.2). -/
noncomputable def FsoDownLinkScintillationIndexModel
    (rmsWindSpeed gndRefractiveIdx : ℝ) : FsoPropagationLossModel :=
  fun p txPos rxPos =>
    let idx := rytovVariance rmsWindSpeed gndRefractiveIdx p.wavelength
      (txPos.z - rxPos.z) (distance txPos rxPos / (txPos.z - rxPos.z))
    { p with scintillationIndex := idx }

/-- Modelled from the spec: effective beam radius after propagating a distance
`d`, growing with distance per Gaussian-beam divergence from the initial beam
radius `w0` (spec §4.2). -/
noncomputable def effectiveBeamRadius (w0 wavelength d : ℝ) : ℝ :=
  Real.sqrt (w0 ^ 2 + (wavelength * d / (π * w0)) ^ 2)

/-- Modelled from the spec: mean irradiance at the receiver, equal to the
transmitted power (with the transmit antenna gain) divided by the effective
beam area, reduced by the receiver aperture capture fraction (spec §4.2). -/
noncomputable def meanIrradianceAt (txPower gainDb frac w0 wavelength d : ℝ) : ℝ :=
  txPower * dbToLinear gainDb / (π * effectiveBeamRadius w0 wavelength d ^ 2) * frac

/-- Modelled from the spec: `FsoMeanIrradianceModel` (source file absent from
the repository).  Computes the mean irradiance from the transmit antenna
referenced by the signal parameters and the link distance, and updates the
`power` field and the auxiliary `meanIrradiance` field (spec §4.2).  The
receiver aperture capture fraction is a configuration constant of the model;
the example program configures none, so the example instance uses full
capture (fraction 1). -/
noncomputable def FsoMeanIrradianceModel (apertureCaptureFraction : ℝ) :
    FsoPropagationLossModel :=
  fun p txPos rxPos =>
    let irr := meanIrradianceAt p.txAntenna.txPower p.txAntenna.gain
      apertureCaptureFraction p.txBeamwidth p.wavelength (distance txPos rxPos)
    { p with power := irr, meanIrradiance := irr }

/-- Modelled from the spec: the seedable random source (spec §6) as a linear
congruential generator over a 31-bit state. -/
def lcg (s : ℕ) : ℕ := (1103515245 * s + 12345) % 2147483648

/-- Uniform draw in (0,1) derived deterministically from a seed. -/
noncomputable def uniformFromSeed (s : ℕ) : ℝ :=
  ((lcg s : ℝ) + 1) / 2147483649

/-- Standard normal draw derived deterministically from a seed via the
Box-Muller transform. -/
noncomputable def normalFromSeed (s : ℕ) : ℝ :=
  Real.sqrt (-2 * Real.log (uniformFromSeed s)) *
    Real.cos (2 * π * uniformFromSeed (lcg s))

/-- Instantaneous received irradiance sampled from the log-normal law:
`ln I` is `ln(meanIrr) − σ²/2 + σ·z` for a standard normal draw `z`
(spec §4.4 step 1). -/
noncomputable def irradianceSample (meanIrr scintIdx z : ℝ) : ℝ :=
  Real.exp (Real.log meanIrr - scintIdx / 2 + Real.sqrt scintIdx * z)

/-- The law of the log-irradiance prescribed by the spec:
`ln(I) ~ Normal(ln(meanIrr) − σ²/2, σ²)` (spec §4.4 step 1). -/
noncomputable def logIrradianceLaw (meanIrr : ℝ) (v : ℝ≥0) : Measure ℝ :=
  gaussianReal (Real.log meanIrr - v / 2) v

/-- Error taxonomy of the core (spec §7). -/
inductive FsoError where
  | configurationError
deriving DecidableEq

/-- Modelled from the spec: `FsoDownLinkErrorModel` (source file absent from
the repository).  Holds the fixed receiver detection threshold
(spec §4.4 step 3). -/
structure FsoDownLinkErrorModel where
  threshold : ℝ

/-- Modelled from the spec: the corruption decision of `FsoDownLinkErrorModel`
(spec §4.4).  A negative scintillation index or a non-positive mean irradiance
fails fast with a configuration error; otherwise one log-normal irradiance
sample is drawn from the seed and compared against the detection threshold,
and the packet is marked corrupted exactly when the sample is below the
threshold. -/
noncomputable def FsoDownLinkErrorModel.IsCorrupt (em : FsoDownLinkErrorModel)
    (p : FsoSignalParameters) (seed : ℕ) : Except FsoError Bool :=
  if p.scintillationIndex < 0 ∨ p.meanIrradiance ≤ 0 then
    Except.error FsoError.configurationError
  else
    Except.ok
      (irradianceSample p.meanIrradiance p.scintillationIndex (normalFromSeed seed)
        < em.threshold)

/-- Modelled from the spec: `FsoDownLinkPhy` (source file absent from the
repository): a transceiver with an identity, a position provider, a bit rate
and an optional bound error model (spec §3). -/
structure FsoDownLinkPhy where
  phyId : ℕ
  position : Vec3
  bitRate : ℝ
  errorModel : Option FsoDownLinkErrorModel := none

/-- Modelled from the spec: the receive path of the PHY (spec §4.3): if an
error model is bound, the corruption decision is delegated to it; otherwise
the packet is delivered unmodified (not corrupted). -/
noncomputable def FsoDownLinkPhy.Receive (phy : FsoDownLinkPhy)
    (p : FsoSignalParameters) (seed : ℕ) : Except FsoError Bool :=
  match phy.errorModel with
  | none => Except.ok false
  | some em => em.IsCorrupt p seed

/-- A scheduled delivery: receiver, propagation delay, packet size and the
finalized signal parameters (spec §4.1 step 3). -/
structure DeliveryEvent where
  receiver : FsoDownLinkPhy
  delay : ℝ
  packetSize : ℕ
  params : FsoSignalParameters

/-- Modelled from the spec: `FsoChannel` (source file absent from the
repository): an ordered loss-model chain, the wave speed of the single
`ConstantSpeedPropagationDelayModel`, and the attached PHYs in insertion
order (spec §3, §4.1). -/
structure FsoChannel where
  lossModels : List FsoPropagationLossModel := []
  delaySpeed : ℝ := 3e8
  phys : List FsoDownLinkPhy := []

/-- Modelled from the spec: `FsoChannel::AddFsoPropagationLossModel` appends to
the ordered chain (spec §4.1). -/
def FsoChannel.AddFsoPropagationLossModel (c : FsoChannel)
    (m : FsoPropagationLossModel) : FsoChannel :=
  { c with lossModels := c.lossModels ++ [m] }

/-- Modelled from the spec: `FsoChannel::SetPropagationDelayModel` replaces the
single delay model, here its wave-speed constant (spec §4.1, §2). -/
def FsoChannel.SetPropagationDelayModel (c : FsoChannel) (speed : ℝ) : FsoChannel :=
  { c with delaySpeed := speed }

/-- Modelled from the spec: `FsoChannel::Add` attaches a PHY, preserving
insertion order (spec §3). -/
def FsoChannel.Add (c : FsoChannel) (phy : FsoDownLinkPhy) : FsoChannel :=
  { c with phys := c.phys ++ [phy] }

/-- The loss-model chain applied in registration order, each model receiving
the output of the previous one and the two positions (spec §4.1 step 1). -/
noncomputable def applyLossChain (models : List FsoPropagationLossModel)
    (p : FsoSignalParameters) (txPos rxPos : Vec3) : FsoSignalParameters :=
  models.foldl (fun q m => m q txPos rxPos) p

/-- Modelled from the spec: `FsoChannel::Send` (spec §4.1): for every attached
PHY other than the sender, run the loss chain in registration order, compute
the propagation delay from the geometry and the wave speed, and schedule a
delivery event carrying the packet and the finalized signal parameters. -/
noncomputable def FsoChannel.Send (c : FsoChannel) (packetSize : ℕ)
    (p : FsoSignalParameters) (sender : FsoDownLinkPhy) : List DeliveryEvent :=
  (c.phys.filter fun r => r.phyId ≠ sender.phyId).map fun r =>
    { receiver := r
      delay := distance sender.position r.position / c.delaySpeed
      packetSize := packetSize
      params := applyLossChain c.lossModels p sender.position r.position }

/-- Modelled from the spec: `FsoDownLinkPhy::SendPacket` forwards to
`channel.Send` with itself as the sender (spec §4.3). -/
noncomputable def FsoDownLinkPhy.SendPacket (phy : FsoDownLinkPhy) (c : FsoChannel)
    (packetSize : ℕ) (p : FsoSignalParameters) : List DeliveryEvent :=
  c.Send packetSize p phy

/-- Satellite position in the example: 707000 meters above the Earth. -/
noncomputable def exampleTxPosition : Vec3 := ⟨0, 0, 707000⟩

/-- Ground-station position in the example: the origin. -/
noncomputable def exampleRxPosition : Vec3 := ⟨0, 0, 0⟩

/-- The laser antenna configured by the example program: beamwidth 0.120 m
(a diameter), phase-front radius 707000 m, orientation 0, transmit power
0.1 W, gain 116 dB. -/
noncomputable def exampleLaser : LaserAntennaModel :=
  { beamwidth := 0.120
    phaseFrontRadius := 707000
    orientation := 0
    txPower := 0.1
    gain := 116 }

/-- The receiving antenna configured by the example program: aperture
diameter 0.318 m, receive gain 121.4 dB, orientation 0. -/
noncomputable def exampleReceiver : OpticalRxAntennaModel :=
  { apertureDiameter := 0.318
    rxGain := 121.4
    orientation := 0 }

/-- The scintillation-index loss model of the example, configured with rms
wind speed 21.0 and ground refractive index 1.7*10e-14 (as written in the
source). -/
noncomputable def exampleScintillationModel : FsoPropagationLossModel :=
  FsoDownLinkScintillationIndexModel 21.0 (1.7 * 10e-14)

/-- The mean-irradiance loss model of the example.  The example program
configures no capture fraction, so the model is instantiated at full capture. -/
noncomputable def exampleMeanIrradianceModel : FsoPropagationLossModel :=
  FsoMeanIrradianceModel 1

/-- The error model bound to the receiving PHY in the example.  The spec fixes
no numeric detection threshold; the value is immaterial to the theorems below. -/
noncomputable def exampleErrorModel : FsoDownLinkErrorModel :=
  { threshold := 1e-6 }

/-- The transmitting PHY of the example (satellite side, no error model). -/
noncomputable def exampleTxPhy : FsoDownLinkPhy :=
  { phyId := 0
    position := exampleTxPosition
    bitRate := 49.3724e6 }

/-- The receiving PHY of the example (ground side, error model bound). -/
noncomputable def exampleRxPhy : FsoDownLinkPhy :=
  { phyId := 1
    position := exampleRxPosition
    bitRate := 49.3724e6
    errorModel := some exampleErrorModel }

/-- The channel set up by the example program: delay model with the example's
speed-of-light constant, the three loss models registered in source order
(free-space loss, scintillation index, mean irradiance), and the two PHYs
attached in source order. -/
noncomputable def exampleChannel : FsoChannel :=
  (((((({} : FsoChannel).SetPropagationDelayModel 3e8).AddFsoPropagationLossModel
      FsoFreeSpaceLossModel).AddFsoPropagationLossModel
      exampleScintillationModel).AddFsoPropagationLossModel
      exampleMeanIrradianceModel).Add exampleTxPhy).Add exampleRxPhy

/-- The signal parameters constructed by the example program before sending:
wavelength 847e-9 m, frequency = speed-of-light / wavelength, symbol period
1/49.3724e6 s, power initialized to 0.0, the transmitting PHY and laser
antenna, beam radius 0.120/2.0 m (half the configured diameter) and
phase-front radius 0.0. -/
noncomputable def exampleParams : FsoSignalParameters :=
  { wavelength := 847e-9
    frequency := 3e8 / 847e-9
    symbolPeriod := 1 / 49.3724e6
    power := 0.0
    txPhy := 0
    txAntenna := exampleLaser
    txBeamwidth := 0.120 / 2.0
    txPhaseFrontRadius := 0.0 }

/-- The delivery events scheduled when the example sends its single
1024-byte packet. -/
noncomputable def exampleSend : List DeliveryEvent :=
  exampleTxPhy.SendPacket exampleChannel 1024 exampleParams

/-- First PHY of the three-PHY channel scenario (the sender A). -/
noncomputable def phyA : FsoDownLinkPhy :=
  { phyId := 0
    position := ⟨0, 0, 0⟩
    bitRate := 49.3724e6 }

/-- Second PHY of the three-PHY channel scenario (receiver B, with its own
bound error model). -/
noncomputable def phyB : FsoDownLinkPhy :=
  { phyId := 1
    position := ⟨1, 0, 0⟩
    bitRate := 49.3724e6
    errorModel := some { threshold := 1e-6 } }

/-- Third PHY of the three-PHY channel scenario (receiver C, with its own
bound error model). -/
noncomputable def phyC : FsoDownLinkPhy :=
  { phyId := 2
    position := ⟨2, 0, 0⟩
    bitRate := 49.3724e6
    errorModel := some { threshold := 2e-6 } }

/-- A channel with the three PHYs A, B, C attached in that order. -/
noncomputable def demoChannel3 : FsoChannel :=
  ((({} : FsoChannel).Add phyA).Add phyB).Add phyC

lemma distance_comm (a b : Vec3) : distance a b = distance b a := by
  unfold distance
  congr 1
  ring

lemma distance_example : distance exampleTxPosition exampleRxPosition = 707000 := by
  unfold distance exampleTxPosition exampleRxPosition
  have h : ((0:ℝ) - 0) ^ 2 + ((0:ℝ) - 0) ^ 2 + ((0:ℝ) - 707000) ^ 2 = 707000 ^ 2 := by
    norm_num
  rw [h, Real.sqrt_sq (by norm_num)]

lemma dbToLinear_pos (g : ℝ) : 0 < dbToLinear g :=
  Real.rpow_pos_of_pos (by norm_num) _

lemma effectiveBeamRadius_sq (w0 wl d : ℝ) :
    effectiveBeamRadius w0 wl d ^ 2 = w0 ^ 2 + (wl * d / (π * w0)) ^ 2 := by
  rw [effectiveBeamRadius, Real.sq_sqrt (by positivity)]

lemma meanIrradianceAt_pos {P g frac w0 : ℝ} (wl d : ℝ)
    (hP : 0 < P) (hfrac : 0 < frac) (hw0 : 0 < w0) :
    0 < meanIrradianceAt P g frac w0 wl d := by
  unfold meanIrradianceAt
  have h1 : 0 < dbToLinear g := dbToLinear_pos g
  have h2 : 0 < effectiveBeamRadius w0 wl d ^ 2 := by
    rw [effectiveBeamRadius_sq]
    positivity
  positivity

/-- C10: the `txBeamwidth` field of the signal parameters carries the beam
radius, not the diameter: the example configures the laser beamwidth as the
diameter 0.120 m and constructs its `FsoSignalParameters` with
`txBeamwidth = 0.120/2.0`, i.e. half the configured antenna beamwidth. -/
theorem txBeamwidth_is_radius_C10 :
    exampleParams.txBeamwidth = exampleLaser.beamwidth / 2
      ∧ exampleLaser.beamwidth = 0.120 := by
  constructor
  · norm_num [exampleParams, exampleLaser]
  · norm_num [exampleLaser]

/-- C4: the corruption decision of the error model is a deterministic function
of the random-number-generator seed and the incoming signal parameters: two
invocations with equal seeds and equal signal parameters yield the identical
outcome. -/
theorem corruption_deterministic_C4 (em : FsoDownLinkErrorModel) (s1 s2 : ℕ)
    (p1 p2 : FsoSignalParameters) (hs : s1 = s2) (hp : p1 = p2) :
    em.IsCorrupt p1 s1 = em.IsCorrupt p2 s2 := by
  rw [hs, hp]

theorem corruption_deterministic_C4_witness :
    exampleErrorModel.IsCorrupt exampleParams 42
      = exampleErrorModel.IsCorrupt exampleParams 42 :=
  corruption_deterministic_C4 exampleErrorModel 42 42 exampleParams exampleParams rfl rfl

/-- C6: whenever the scintillation index is negative or the mean irradiance is
non-positive, the error model fails fast with a configuration error at that
invocation, never silently coercing or clamping the invalid values. -/
theorem errormodel_failfast_C6 (em : FsoDownLinkErrorModel)
    (p : FsoSignalParameters) (seed : ℕ)
    (h : p.scintillationIndex < 0 ∨ p.meanIrradiance ≤ 0) :
    em.IsCorrupt p seed = Except.error FsoError.configurationError := by
  unfold FsoDownLinkErrorModel.IsCorrupt
  rw [if_pos h]

theorem errormodel_failfast_C6_witness :
    ({ exampleParams with scintillationIndex := -1 } :
        FsoSignalParameters).scintillationIndex < 0
      ∧ exampleErrorModel.IsCorrupt { exampleParams with scintillationIndex := -1 } 0
          = Except.error FsoError.configurationError :=
  ⟨by norm_num, errormodel_failfast_C6 exampleErrorModel _ 0 (Or.inl (by norm_num))⟩

/-- C7: the free-space loss model computes the path loss in dB as
`20·log10(4π·d/λ)`, converts it to a linear power ratio and multiplies it into
the power field; it is symmetric under swapping the transmitter and receiver
positions, and doubling the distance at fixed wavelength increases the loss by
exactly `20·log10(2)` dB. -/
theorem freespace_loss_C7 :
    (∀ (p : FsoSignalParameters) (a b : Vec3),
        FsoFreeSpaceLossModel p a b = FsoFreeSpaceLossModel p b a)
  ∧ (∀ (p : FsoSignalParameters) (a b : Vec3),
        (FsoFreeSpaceLossModel p a b).power
          = p.power * freeSpaceLossFactor (distance a b) p.wavelength)
  ∧ (∀ d wl : ℝ, 0 < d → 0 < wl →
        freeSpaceLossDb (2 * d) wl = freeSpaceLossDb d wl + 20 * Real.logb 10 2) := by
  refine ⟨?_, ?_, ?_⟩
  · intro p a b
    unfold FsoFreeSpaceLossModel
    rw [distance_comm]
  · intro p a b
    rfl
  · intro d wl hd hwl
    unfold freeSpaceLossDb
    have h4 : 4 * π * (2 * d) / wl = 2 * (4 * π * d / wl) := by ring
    have hX : 4 * π * d / wl ≠ 0 := by positivity
    rw [h4, Real.logb_mul (by norm_num) hX]
    ring

theorem freespace_loss_C7_witness :
    (0:ℝ) < 1
      ∧ freeSpaceLossDb (2 * 1) 1 = freeSpaceLossDb 1 1 + 20 * Real.logb 10 2 :=
  ⟨by norm_num, freespace_loss_C7.2.2 1 1 (by norm_num) (by norm_num)⟩

/-- C8: the mean-irradiance model sets the power to the transmitted power (with
the transmit gain) divided by the effective beam area (growing with distance
per Gaussian-beam divergence), reduced by the receiver aperture capture
fraction; and the mean irradiance is strictly decreasing in the tx-rx distance
when beamwidth, tx power and all other parameters are held fixed. -/
theorem mean_irradiance_C8 :
    (∀ (frac : ℝ) (p : FsoSignalParameters) (a b : Vec3),
        (FsoMeanIrradianceModel frac p a b).power
          = meanIrradianceAt p.txAntenna.txPower p.txAntenna.gain frac
              p.txBeamwidth p.wavelength (distance a b))
  ∧ (∀ P g frac w0 wl d1 d2 : ℝ, 0 < P → 0 < frac → 0 < w0 → 0 < wl →
        0 ≤ d1 → d1 < d2 →
        meanIrradianceAt P g frac w0 wl d2 < meanIrradianceAt P g frac w0 wl d1) := by
  constructor
  · intro frac p a b
    rfl
  · intro P g frac w0 wl d1 d2 hP hfrac hw0 hwl hd1 hd12
    unfold meanIrradianceAt
    have hnum : 0 < P * dbToLinear g := mul_pos hP (dbToLinear_pos g)
    have h1 : wl * d1 / (π * w0) < wl * d2 / (π * w0) := by
      have hc : 0 < π * w0 := by positivity
      have hm : wl * d1 < wl * d2 := by
        exact mul_lt_mul_of_pos_left hd12 hwl
      exact div_lt_div_of_pos_right hm hc
    have h0 : 0 ≤ wl * d1 / (π * w0) := by positivity
    have hsq : (wl * d1 / (π * w0)) ^ 2 < (wl * d2 / (π * w0)) ^ 2 := by
      nlinarith
    have hlt : w0 ^ 2 + (wl * d1 / (π * w0)) ^ 2
        < w0 ^ 2 + (wl * d2 / (π * w0)) ^ 2 := by linarith
    have hden1 : 0 < π * (w0 ^ 2 + (wl * d1 / (π * w0)) ^ 2) := by positivity
    rw [effectiveBeamRadius_sq, effectiveBeamRadius_sq]
    have key : P * dbToLinear g / (π * (w0 ^ 2 + (wl * d2 / (π * w0)) ^ 2))
        < P * dbToLinear g / (π * (w0 ^ 2 + (wl * d1 / (π * w0)) ^ 2)) := by
      apply div_lt_div_of_pos_left hnum hden1
      have := Real.pi_pos
      nlinarith
    exact mul_lt_mul_of_pos_right key hfrac

theorem mean_irradiance_C8_witness :
    meanIrradianceAt 1 0 1 1 1 1 < meanIrradianceAt 1 0 1 1 1 0 :=
  mean_irradiance_C8.2 1 0 1 1 1 0 1 (by norm_num) (by norm_num) (by norm_num)
    (by norm_num) (by norm_num) (by norm_num)

lemma length_filter_ne_of_nodup (l : List FsoDownLinkPhy) (s : FsoDownLinkPhy)
    (hnd : (l.map FsoDownLinkPhy.phyId).Nodup) (hs : s ∈ l) :
    (l.filter fun r => r.phyId ≠ s.phyId).length = l.length - 1 := by
  induction l with
  | nil => cases hs
  | cons a t ih =>
    rw [List.map_cons, List.nodup_cons] at hnd
    rcases List.mem_cons.mp hs with rfl | hmem
    · rw [List.filter_cons_of_neg (by simp)]
      have hall : t.filter (fun r => r.phyId ≠ s.phyId) = t := by
        apply List.filter_eq_self.mpr
        intro x hx
        simp only [ne_eq, decide_eq_true_eq]
        intro hEq
        exact hnd.1 (hEq ▸ List.mem_map_of_mem _ hx)
      rw [hall]
      simp
    · have hne : a.phyId ≠ s.phyId := by
        intro hEq
        exact hnd.1 (by rw [hEq]; exact List.mem_map_of_mem _ hmem)
      rw [List.filter_cons_of_pos (by simp [hne])]
      have hlen : 1 ≤ t.length := List.length_pos.mpr (List.ne_nil_of_mem hmem)
      have := ih hnd.2 hmem
      simp only [List.length_cons]
      omega

/-- C2: a channel with N attached PHYs (with distinct identities) delivers a
sent packet to exactly the N−1 other attached PHYs and never back to the
sender; in the three-PHY scenario, a send from PHY A produces exactly the two
delivery events to B and C; and each delivery event is processed by the
receiving PHY through its own bound error model. -/
theorem channel_no_echo_C2 :
    (∀ (c : FsoChannel) (n : ℕ) (p : FsoSignalParameters) (s : FsoDownLinkPhy),
        (c.phys.map FsoDownLinkPhy.phyId).Nodup → s ∈ c.phys →
          (c.Send n p s).length = c.phys.length - 1
            ∧ ∀ e ∈ c.Send n p s, e.receiver.phyId ≠ s.phyId)
  ∧ ((demoChannel3.Send 1024 exampleParams phyA).map
        (fun e => e.receiver.phyId) = [phyB.phyId, phyC.phyId])
  ∧ (∀ (phy : FsoDownLinkPhy) (em : FsoDownLinkErrorModel)
        (p : FsoSignalParameters) (seed : ℕ),
        phy.errorModel = some em → phy.Receive p seed = em.IsCorrupt p seed) := by
  refine ⟨?_, ?_, ?_⟩
  · intro c n p s hnd hs
    constructor
    · rw [FsoChannel.Send, List.length_map]
      exact length_filter_ne_of_nodup c.phys s hnd hs
    · intro e he
      rw [FsoChannel.Send, List.mem_map] at he
      obtain ⟨r, hr, rfl⟩ := he
      have h := (List.mem_filter.mp hr).2
      simpa using h
  · simp [demoChannel3, FsoChannel.Add, FsoChannel.Send, phyA, phyB, phyC]
  · intro phy em p seed h
    rw [FsoDownLinkPhy.Receive, h]

theorem channel_no_echo_C2_witness :
    (demoChannel3.Send 1024 exampleParams phyA).length = 3 - 1
      ∧ phyB.Receive exampleParams 0
          = FsoDownLinkErrorModel.IsCorrupt { threshold := 1e-6 } exampleParams 0 := by
  constructor
  · have hnd : (demoChannel3.phys.map FsoDownLinkPhy.phyId).Nodup := by
      simp [demoChannel3, FsoChannel.Add, phyA, phyB, phyC]
    have hmem : phyA ∈ demoChannel3.phys := by
      simp [demoChannel3, FsoChannel.Add]
    have h := (channel_no_echo_C2.1 demoChannel3 1024 exampleParams phyA hnd hmem).1
    have hlen : demoChannel3.phys.length = 3 := by
      simp [demoChannel3, FsoChannel.Add]
    rw [hlen] at h
    exact h
  · exact channel_no_echo_C2.2.2 phyB { threshold := 1e-6 } exampleParams 0 rfl

lemma freeSpaceLossFactor_lt_one {d wl : ℝ} (h : 1 < 4 * π * d / wl) :
    freeSpaceLossFactor d wl < 1 := by
  unfold freeSpaceLossFactor
  apply Real.rpow_lt_one_of_one_lt_of_neg (by norm_num)
  have hlog : 0 < Real.logb 10 (4 * π * d / wl) := Real.logb_pos (by norm_num) h
  unfold freeSpaceLossDb
  linarith

/-- C3: `Send` applies the loss models in the exact order in which they were
registered with `AddFsoPropagationLossModel` (which appends to the chain),
each model receiving the output of the previous one together with the sender
and receiver positions; and registering the example models in a different
order changes the numeric result. -/
theorem loss_chain_order_C3 :
    (∀ (c : FsoChannel) (m : FsoPropagationLossModel) (p : FsoSignalParameters)
        (a b : Vec3),
        (c.AddFsoPropagationLossModel m).lossModels = c.lossModels ++ [m]
          ∧ applyLossChain (c.AddFsoPropagationLossModel m).lossModels p a b
              = m (applyLossChain c.lossModels p a b) a b)
  ∧ (∀ (c : FsoChannel) (n : ℕ) (p : FsoSignalParameters) (s : FsoDownLinkPhy),
        (c.Send n p s).map DeliveryEvent.params
          = (c.phys.filter fun r => r.phyId ≠ s.phyId).map
              (fun r => applyLossChain c.lossModels p s.position r.position))
  ∧ ((applyLossChain [FsoFreeSpaceLossModel, exampleScintillationModel,
        exampleMeanIrradianceModel] exampleParams exampleTxPosition
        exampleRxPosition).power
      ≠ (applyLossChain [exampleMeanIrradianceModel, exampleScintillationModel,
        FsoFreeSpaceLossModel] exampleParams exampleTxPosition
        exampleRxPosition).power) := by
  refine ⟨?_, ?_, ?_⟩
  · intro c m p a b
    refine ⟨rfl, ?_⟩
    rw [FsoChannel.AddFsoPropagationLossModel]
    unfold applyLossChain
    rw [List.foldl_append]
    rfl
  · intro c n p s
    rw [FsoChannel.Send, List.map_map]
    rfl
  · have hd := distance_example
    have h1 : (applyLossChain [FsoFreeSpaceLossModel, exampleScintillationModel,
        exampleMeanIrradianceModel] exampleParams exampleTxPosition
        exampleRxPosition).power
        = meanIrradianceAt exampleParams.txAntenna.txPower
            exampleParams.txAntenna.gain 1 exampleParams.txBeamwidth
            exampleParams.wavelength (distance exampleTxPosition exampleRxPosition) :=
      rfl
    have h2 : (applyLossChain [exampleMeanIrradianceModel, exampleScintillationModel,
        FsoFreeSpaceLossModel] exampleParams exampleTxPosition
        exampleRxPosition).power
        = meanIrradianceAt exampleParams.txAntenna.txPower
            exampleParams.txAntenna.gain 1 exampleParams.txBeamwidth
            exampleParams.wavelength (distance exampleTxPosition exampleRxPosition)
          * freeSpaceLossFactor (distance exampleTxPosition exampleRxPosition)
              exampleParams.wavelength :=
      rfl
    rw [h1, h2, hd]
    have hI : 0 < meanIrradianceAt exampleParams.txAntenna.txPower
        exampleParams.txAntenna.gain 1 exampleParams.txBeamwidth
        exampleParams.wavelength 707000 := by
      apply meanIrradianceAt_pos
      · norm_num [exampleParams, exampleLaser]
      · norm_num
      · norm_num [exampleParams]
    have hwl : exampleParams.wavelength = 847e-9 := rfl
    have hF : freeSpaceLossFactor 707000 exampleParams.wavelength < 1 := by
      rw [hwl]
      apply freeSpaceLossFactor_lt_one
      rw [one_lt_div (by norm_num)]
      nlinarith [Real.pi_gt_three]
    intro heq
    have hpos := mul_pos hI (sub_pos.mpr hF)
    rw [mul_sub, mul_one] at hpos
    linarith

/-- C1: in the end-to-end scenario configured by the example program, sending
the single 1024-byte packet produces exactly one scheduled delivery event, at
delay equal to the link distance divided by the speed of light (approximately
2.357 ms), and the delivered signal parameters carry a strictly positive power
value after all three loss stages. -/
theorem example_end_to_end_C1 :
    exampleSend.length = 1
  ∧ exampleSend.map DeliveryEvent.delay = [707000 / 3e8]
  ∧ |(707000 : ℝ) / 3e8 - 2.357e-3| < 1e-6
  ∧ exampleSend.map (fun e => e.params.power)
      = [meanIrradianceAt 0.1 116 1 (0.120 / 2.0) 847e-9 707000]
  ∧ 0 < meanIrradianceAt 0.1 116 1 (0.120 / 2.0) 847e-9 707000 := by
  have hsend : exampleSend = [{
      receiver := exampleRxPhy
      delay := distance exampleTxPosition exampleRxPosition / 3e8
      packetSize := 1024
      params := applyLossChain [FsoFreeSpaceLossModel, exampleScintillationModel,
        exampleMeanIrradianceModel] exampleParams exampleTxPosition
        exampleRxPosition }] := rfl
  have hpow : (applyLossChain [FsoFreeSpaceLossModel, exampleScintillationModel,
      exampleMeanIrradianceModel] exampleParams exampleTxPosition
      exampleRxPosition).power
      = meanIrradianceAt 0.1 116 1 (0.120 / 2.0) 847e-9
          (distance exampleTxPosition exampleRxPosition) := rfl
  refine ⟨?_, ?_, ?_, ?_, ?_⟩
  · rw [hsend]
    rfl
  · rw [hsend]
    simp only [List.map_cons, List.map_nil]
    rw [distance_example]
  · rw [abs_sub_lt_iff]
    constructor <;> norm_num
  · rw [hsend]
    simp only [List.map_cons, List.map_nil]
    rw [hpow, distance_example]
  · apply meanIrradianceAt_pos <;> norm_num

/-- C9: `SendPacket` accepts signal parameters whose power field is
initialized to 0.0; the power delivered through the three-model loss chain is
derived from the transmitting antenna's configured transmit power and gain
rather than from the initial value of the power field, and is strictly
positive for the example's configuration. -/
theorem power_field_ignored_C9 :
    exampleParams.power = 0
  ∧ (∀ p0 : ℝ,
      (applyLossChain exampleChannel.lossModels
          { exampleParams with power := p0 } exampleTxPosition
          exampleRxPosition).power
        = (applyLossChain exampleChannel.lossModels exampleParams
            exampleTxPosition exampleRxPosition).power)
  ∧ (applyLossChain exampleChannel.lossModels exampleParams
        exampleTxPosition exampleRxPosition).power
      = meanIrradianceAt 0.1 116 1 (0.120 / 2.0) 847e-9 707000
  ∧ 0 < (applyLossChain exampleChannel.lossModels exampleParams
        exampleTxPosition exampleRxPosition).power := by
  have hch : (applyLossChain exampleChannel.lossModels exampleParams
      exampleTxPosition exampleRxPosition).power
      = meanIrradianceAt 0.1 116 1 (0.120 / 2.0) 847e-9
          (distance exampleTxPosition exampleRxPosition) := rfl
  refine ⟨?_, ?_, ?_, ?_⟩
  · norm_num [exampleParams]
  · intro p0
    rfl
  · rw [hch, distance_example]
  · rw [hch]
    apply meanIrradianceAt_pos <;> norm_num

lemma gaussianPDFReal_mul_exp (m : ℝ) (v : ℝ≥0) (hv : v ≠ 0) (x : ℝ) :
    gaussianPDFReal m v x * Real.exp x
      = Real.exp (m + (v : ℝ) / 2) * gaussianPDFReal (m + v) v x := by
  have hv' : (v : ℝ) ≠ 0 := by exact_mod_cast hv
  unfold gaussianPDFReal
  have key : Real.exp (-(x - m) ^ 2 / (2 * v)) * Real.exp x
      = Real.exp (m + (v : ℝ) / 2) * Real.exp (-(x - (m + v)) ^ 2 / (2 * v)) := by
    rw [← Real.exp_add, ← Real.exp_add]
    congr 1
    field_simp
    ring
  calc (√(2 * π * v))⁻¹ * Real.exp (-(x - m) ^ 2 / (2 * v)) * Real.exp x
      = (√(2 * π * v))⁻¹ * (Real.exp (-(x - m) ^ 2 / (2 * v)) * Real.exp x) := by ring
    _ = (√(2 * π * v))⁻¹ * (Real.exp (m + (v : ℝ) / 2)
          * Real.exp (-(x - (m + v)) ^ 2 / (2 * v))) := by rw [key]
    _ = Real.exp (m + (v : ℝ) / 2)
          * ((√(2 * π * v))⁻¹ * Real.exp (-(x - (m + v)) ^ 2 / (2 * v))) := by ring

lemma integral_exp_gaussianReal (m : ℝ) (v : ℝ≥0) :
    ∫ x, Real.exp x ∂(gaussianReal m v) = Real.exp (m + (v : ℝ) / 2) := by
  by_cases hv : v = 0
  · subst hv
    rw [gaussianReal_zero_var, integral_dirac]
    norm_num
  · rw [gaussianReal_of_var_ne_zero m hv]
    have hmeas : Measurable fun x => (gaussianPDFReal m v x).toNNReal :=
      (measurable_gaussianPDFReal m v).real_toNNReal
    have hd : gaussianPDF m v = fun x => ((gaussianPDFReal m v x).toNNReal : ENNReal) :=
      rfl
    rw [hd, integral_withDensity_eq_integral_smul hmeas]
    have heq : (fun x => (gaussianPDFReal m v x).toNNReal • Real.exp x)
        = fun x => Real.exp (m + (v : ℝ) / 2) * gaussianPDFReal (m + v) v x := by
      funext x
      rw [NNReal.smul_def, Real.coe_toNNReal _ (gaussianPDFReal_nonneg m v x)]
      exact gaussianPDFReal_mul_exp m v hv x
    rw [heq, integral_mul_left, integral_gaussianPDFReal_eq_one (m + v) hv, mul_one]

lemma map_affine_gaussianReal (a : ℝ) (v : ℝ≥0) :
    Measure.map (fun z => a + Real.sqrt v * z) (gaussianReal 0 1) = gaussianReal a v := by
  have h1 : (fun z : ℝ => a + Real.sqrt v * z)
      = (fun y : ℝ => a + y) ∘ (fun z : ℝ => Real.sqrt (v : ℝ) * z) := rfl
  have hg : Measurable fun y : ℝ => a + y := measurable_const_add a
  have hf : Measurable fun z : ℝ => Real.sqrt (v : ℝ) * z := measurable_id.const_mul _
  rw [h1, ← Measure.map_map hg hf, @gaussianReal_map_const_mul 0 1 (Real.sqrt v)]
  have h2 : (⟨Real.sqrt (v : ℝ) ^ 2, sq_nonneg _⟩ : ℝ≥0) * 1 = v := by
    ext
    simp [Real.sq_sqrt v.coe_nonneg]
  rw [h2, mul_zero, @gaussianReal_map_const_add 0 v a, zero_add]

/-- C5: the error model samples the instantaneous irradiance from the
log-normal law with `ln(I) ~ Normal(ln(meanIrr) − σ²/2, σ²)`: pushing a
standard normal draw through `irradianceSample` yields exactly the exponential
image of `logIrradianceLaw`, and the expected value of the sampled irradiance
equals the mean irradiance for every variance `σ² ≥ 0` and every positive mean
irradiance (the `−σ²/2` bias-correction term). -/
theorem lognormal_mean_C5 (meanIrr : ℝ) (v : ℝ≥0) (hm : 0 < meanIrr) :
    Measure.map (fun z => irradianceSample meanIrr v z) (gaussianReal 0 1)
        = Measure.map Real.exp (logIrradianceLaw meanIrr v)
      ∧ ∫ x, x ∂(Measure.map (fun z => irradianceSample meanIrr v z)
          (gaussianReal 0 1)) = meanIrr := by
  have hsamp : (fun z : ℝ => irradianceSample meanIrr v z)
      = Real.exp ∘ (fun z : ℝ => (Real.log meanIrr - (v : ℝ) / 2)
          + Real.sqrt (v : ℝ) * z) := rfl
  have haff : Measurable fun z : ℝ => (Real.log meanIrr - (v : ℝ) / 2)
      + Real.sqrt (v : ℝ) * z := (measurable_id.const_mul _).const_add _
  have h1 : Measure.map (fun z : ℝ => irradianceSample meanIrr v z) (gaussianReal 0 1)
      = Measure.map Real.exp (gaussianReal (Real.log meanIrr - (v : ℝ) / 2) v) := by
    rw [hsamp, ← Measure.map_map Real.measurable_exp haff,
      map_affine_gaussianReal (Real.log meanIrr - (v : ℝ) / 2) v]
  constructor
  · rw [h1]
    rfl
  · rw [h1]
    have h2 : ∫ x, x ∂(Measure.map Real.exp
          (gaussianReal (Real.log meanIrr - (v : ℝ) / 2) v))
        = ∫ z, Real.exp z ∂(gaussianReal (Real.log meanIrr - (v : ℝ) / 2) v) :=
      integral_map Real.measurable_exp.aemeasurable aestronglyMeasurable_id
    rw [h2, integral_exp_gaussianReal]
    have harg : Real.log meanIrr - (v : ℝ) / 2 + (v : ℝ) / 2 = Real.log meanIrr := by
      ring
    rw [harg, Real.exp_log hm]

theorem lognormal_mean_C5_witness :
    (0 : ℝ) < 2
      ∧ ∫ x, x ∂(Measure.map (fun z => irradianceSample 2 ((1 : ℝ≥0) : ℝ) z)
          (gaussianReal 0 1)) = 2 :=
  ⟨by norm_num, (lognormal_mean_C5 2 1 (by norm_num)).2⟩
